import Mathlib

/-!
Zone definition fetching (`definition/definition.go`)

A shallow embedding of `NewZoneDefinition` and `FetchDefinition`.

* The record types of the cloudstack client library, the error values it
  surfaces and the state of the remote installation are parameters
  (`Cloudstack`).
* The collaborators that `FetchDefinition` calls but that are not part of
  `definition.go` (the two zone lookups of the client library and the nine
  built-in fetchers) are parameters (`Package`).
* Go maps are `Option (List (String × α))`: `none` is the nil map, `some []` is
  what `make(map[string]α)` returns.
* The function is run on an explicit `State`: the package-level `client`
  variable, the remote world, and the list of calls issued so far.
-/

set_option linter.dupNamespace false

namespace Definition

/-! ## Data model -/

/-- The types that come from outside the package: the record types of the
cloudstack client library, the errors its calls surface, and the remote state
its calls observe and change. -/
structure Cloudstack where
  Zone : Type
  Pod : Type
  Cluster : Type
  Host : Type
  StoragePool : Type
  ImageStore : Type
  PhysicalNetwork : Type
  TrafficType : Type
  Network : Type
  ServiceOffering : Type
  DiskOffering : Type
  Configuration : Type
  RemoteError : Type
  World : Type

/-- A Go `map[string]α`: `none` is the nil map, `some l` an initialised one. -/
abbrev GoMap (α : Type) : Type := Option (List (String × α))

/-- The result of `make(map[string]α)`: initialised, no entries. -/
def GoMap.make {α : Type} : GoMap α := some []

/-- An initialised map without entries (as opposed to a nil map). -/
def GoMap.presentAndEmpty {α : Type} (m : GoMap α) : Prop := m = some []

/-- Go `error` values: the ones built inside the package with `errors.New` or
`fmt.Errorf` (a message), and the ones surfaced by a collaborator. -/
inductive GoError (E : Type) where
  | errorString (s : String)
  | remote (e : E)
deriving DecidableEq

/-- Model of `errors.New`. -/
def errorsNew {E : Type} (s : String) : GoError E := GoError.errorString s

def DefaultScheme : String := "http"
def DefaultAddress : String := "127.0.0.1:8080"
def DefaultPath : String := "/client/api"

structure TrafficType (C : Cloudstack) where
  TrafficType : C.TrafficType
  Networks : GoMap C.Network

structure PhysicalNetwork (C : Cloudstack) where
  PhysicalNetwork : C.PhysicalNetwork
  TrafficTypes : GoMap (TrafficType C)

structure ZoneDefinition (C : Cloudstack) where
  Zone : C.Zone
  Pods : GoMap C.Pod
  Clusters : GoMap C.Cluster
  Hosts : GoMap C.Host
  PrimaryStoragePools : GoMap C.StoragePool
  SecondaryStoragePools : GoMap C.ImageStore
  PhysicalNetworks : GoMap (PhysicalNetwork C)
  ComputeOfferings : GoMap C.ServiceOffering
  DiskOfferings : GoMap C.DiskOffering
  GlobalConfigs : GoMap C.Configuration

def NewZoneDefinition {C : Cloudstack} (zone : C.Zone) : ZoneDefinition C :=
  { Zone := zone
    Pods := GoMap.make
    Clusters := GoMap.make
    Hosts := GoMap.make
    PrimaryStoragePools := GoMap.make
    SecondaryStoragePools := GoMap.make
    PhysicalNetworks := GoMap.make
    ComputeOfferings := GoMap.make
    DiskOfferings := GoMap.make
    GlobalConfigs := GoMap.make }

/-- The handle returned by `cloudstack.NewAsyncClient`, identified by the
arguments it was built from. -/
structure CloudStackClient where
  apiurl : String
  apikey : String
  secret : String
  verifyssl : Bool
deriving DecidableEq

/-- Model of `cloudstack.NewAsyncClient(apiurl, apikey, secret, verifyssl)`. -/
def NewAsyncClient (apiurl apikey secret : String) (verifyssl : Bool) : CloudStackClient :=
  { apiurl := apiurl, apikey := apikey, secret := secret, verifyssl := verifyssl }

/-- What a call of a `Fetcher` leaves behind: the structure behind the pointer
it was given, the remote world, and the returned `error` (`none` is nil). -/
structure FetcherResult (C : Cloudstack) where
  zd : ZoneDefinition C
  world : C.World
  err : Option (GoError C.RemoteError)

/-- Go `type Fetcher func(*ZoneDefinition) error`. A fetcher may read the
package-level `client` variable (first argument), mutate the structure it is
handed, and talk to the remote world. -/
abbrev Fetcher (C : Cloudstack) : Type :=
  Option CloudStackClient → ZoneDefinition C → C.World → FetcherResult C

structure Config (C : Cloudstack) where
  Key : String
  Secret : String
  Scheme : String
  Address : String
  Path : String
  ZoneID : String
  ZoneName : String
  Fetchers : List (Fetcher C)

/-- The three results of `client.Zone.GetZoneByName` / `GetZoneByID`
(`*Zone`, `int`, `error`) and the remote world after the call. -/
structure LookupResult (C : Cloudstack) where
  zone : Option C.Zone
  count : Int
  err : Option (GoError C.RemoteError)
  world : C.World

/-- The collaborators of `FetchDefinition` that live outside `definition.go`:
the two zone lookups of the client library and the nine built-in fetchers. -/
structure Package (C : Cloudstack) where
  GetZoneByName : CloudStackClient → String → C.World → LookupResult C
  GetZoneByID : CloudStackClient → String → C.World → LookupResult C
  fetchPods : Fetcher C
  fetchClusters : Fetcher C
  fetchHosts : Fetcher C
  fetchPrimaryStoragePools : Fetcher C
  fetchSecondaryStoragePools : Fetcher C
  fetchPhysicalNetworks : Fetcher C
  fetchComputeOfferings : Fetcher C
  fetchDiskOfferings : Fetcher C
  fetchGlobalConfigs : Fetcher C

def defaultFetchers {C : Cloudstack} (pkg : Package C) : List (Fetcher C) :=
  [ pkg.fetchPods,
    pkg.fetchClusters,
    pkg.fetchHosts,
    pkg.fetchPrimaryStoragePools,
    pkg.fetchSecondaryStoragePools,
    pkg.fetchPhysicalNetworks,
    pkg.fetchComputeOfferings,
    pkg.fetchDiskOfferings,
    pkg.fetchGlobalConfigs ]

/-- The calls `FetchDefinition` issues, in the order it issues them.
`fetcher i` is the call of the element at position `i` of
`append(defaultFetchers, conf.Fetchers...)`. -/
inductive Event where
  | newAsyncClient (c : CloudStackClient)
  | logPrintln (msg : String)
  | getZoneByName (name : String)
  | getZoneByID (id : String)
  | fetcher (i : Nat)
deriving DecidableEq

/-- The state `FetchDefinition` runs on: the package-level `client` variable,
the remote world, and the calls issued so far. -/
structure State (C : Cloudstack) where
  client : Option CloudStackClient
  world : C.World
  events : List Event

/-- How a call of `FetchDefinition` ends: it returns its pair
(`*ZoneDefinition`, `error`), or it panics dereferencing a nil `*Zone`. -/
inductive Outcome (C : Cloudstack) where
  | returned (zd : Option (ZoneDefinition C)) (err : Option (GoError C.RemoteError))
  | panicked

/-! ## `fmt` with an empty operand list

`FetchDefinition` calls `fmt.Errorf(format)` with a computed format string and
no operands.  The definitions below follow `doPrintf` of the Go standard
library (`fmt/print.go`) for an empty operand list `a`; the format is kept as
the list of characters still to be read (`format[i:]`).  Flag, width and
precision values have no effect on the output when there is no operand, so only
what the parser consumes and what it writes is kept. -/

def badWidthString : List Char := "%!(BADWIDTH)".toList
def badPrecString : List Char := "%!(BADPREC)".toList
def noVerbString : List Char := "%!(NOVERB)".toList

/-- The function `(p *pp) missingArg(verb)`: writes `%!verb(MISSING)`. -/
def missingArg (verb : Char) : List Char := "%!".toList ++ [verb] ++ "(MISSING)".toList

/-- The function `(p *pp) badArgNum(verb)`: writes `%!verb(BADINDEX)`. -/
def badArgNum (verb : Char) : List Char := "%!".toList ++ [verb] ++ "(BADINDEX)".toList

/-- The characters the `simpleFormat` loop accepts as flags. -/
def isFlag (c : Char) : Bool :=
  c = '#' || c = '0' || c = '+' || c = '-' || c = ' '

/-- The `simpleFormat` loop with no operand left: it steps over the flags and
stops at the first other character (the fast path needs `argNum < len(a)`). -/
def skipFlags (format : List Char) : List Char := format.dropWhile isFlag

def tooLarge (x : Nat) : Bool := decide (x > 1000000)

/-- The loop of `parsenum` over `s[newi:end]`; an overflow gives
`(0, false, end)`. -/
def parsenumLoop : List Char → Nat → Bool → Nat × Bool × List Char
  | [], num, isnum => (num, isnum, [])
  | c :: cs, num, isnum =>
    if '0' ≤ c ∧ c ≤ '9' then
      if tooLarge num then (0, false, [])
      else parsenumLoop cs (num * 10 + (c.toNat - '0'.toNat)) true
    else (num, isnum, c :: cs)

/-- Go `parsenum(s, start, end)` on the slice `s[start:end]`: the number, whether
one was read, and `s[newi:end]`. -/
def parsenum (s : List Char) : Nat × Bool × List Char :=
  if s = [] then (0, false, []) else parsenumLoop s 0 false

/-- Length in bytes of the UTF-8 encoding (Go `len` of a string). -/
def byteLen (s : List Char) : Nat := (String.mk s).utf8ByteSize

/-- Go `parseArgNumber(format)`, where `format` starts at the opening bracket:
what is left of the format after the `wid` bytes it consumes, and `ok`.  (The
index it reads is never in range of an empty operand list.) -/
def parseArgNumber (format : List Char) : List Char × Bool :=
  if byteLen format < 3 then (format.drop 1, false)
  else
    match (format.drop 1).dropWhile (fun c => c != ']') with
    | [] => (format.drop 1, false)
    | _ :: rest =>
      let r := parsenum ((format.drop 1).takeWhile (fun c => c != ']'))
      if !r.2.1 || r.2.2 != [] then (rest, false) else (rest, true)

/-- Go `(p *pp) argNumber(argNum, format, i, numArgs)` with `numArgs = 0`: the
format left, `found`, and the new value of `p.goodArgNum`. -/
def argNumber (format : List Char) (goodArgNum : Bool) : List Char × Bool × Bool :=
  match format with
  | '[' :: _ =>
    let r := parseArgNumber format
    (r.1, r.2, false)
  | _ => (format, false, goodArgNum)

/-- The width part of one verb: what is written, the format left, `afterIndex`
and `p.goodArgNum`. -/
def doWidth (format : List Char) (afterIndex goodArgNum : Bool) :
    List Char × List Char × Bool × Bool :=
  match format with
  | '*' :: rest => (badWidthString, rest, false, goodArgNum)
  | _ =>
    let r := parsenum format
    ([], r.2.2, afterIndex, if afterIndex && r.2.1 then false else goodArgNum)

/-- The precision part of one verb: what is written, the format left,
`afterIndex` and `p.goodArgNum`.  The branch is entered only when the dot is not
the last character of the format (`i+1 < end && format[i] == '.'`); a dot that
ends the format is left to be read as the verb. -/
def doPrecision (format : List Char) (afterIndex goodArgNum : Bool) :
    List Char × List Char × Bool × Bool :=
  match format with
  | '.' :: c :: cs =>
    let a := argNumber (c :: cs) (if afterIndex then false else goodArgNum)
    match a.1 with
    | '*' :: rest2 => (badPrecString, rest2, false, a.2.2)
    | _ => ([], (parsenum a.1).2.2, a.2.1, a.2.2)
  | _ => ([], format, afterIndex, goodArgNum)

/-- One verb of `doPrintf`: `format` is what follows the percent sign.  Returns
what is written and the format left. -/
def doVerb (format : List Char) : List Char × List Char :=
  let a := argNumber (skipFlags format) true
  let w := doWidth a.1 a.2.1 a.2.2
  let p := doPrecision w.2.1 w.2.2.1 w.2.2.2
  let b := if !p.2.2.1 then argNumber p.2.1 p.2.2.2 else (p.2.1, p.2.2.1, p.2.2.2)
  match b.1 with
  | [] => (w.1 ++ p.1 ++ noVerbString, [])
  | verb :: rest =>
    if verb = '%' then (w.1 ++ p.1 ++ ['%'], rest)
    else if !b.2.2 then (w.1 ++ p.1 ++ badArgNum verb, rest)
    else (w.1 ++ p.1 ++ missingArg verb, rest)

/-- The `formatLoop` of `doPrintf` with an empty operand list.  Every round
reads at least one character; `none` means the round budget ran out. -/
def doPrintf : Nat → List Char → Option (List Char)
  | _, [] => some []
  | 0, _ :: _ => none
  | fuel + 1, c :: cs =>
    let text := (c :: cs).takeWhile (fun x => x != '%')
    match (c :: cs).dropWhile (fun x => x != '%') with
    | [] => some text
    | _ :: rest =>
      let v := doVerb rest
      (doPrintf fuel v.2).map (fun tail => text ++ v.1 ++ tail)

/-- Model of `fmt.Sprintf(format)` without operands. -/
def Sprintf (format : String) : String :=
  String.mk ((doPrintf format.length format.toList).getD [])

/-- Model of `fmt.Errorf(format)` without operands: `errors.New(Sprintf(format))`. -/
def Errorf {E : Type} (format : String) : GoError E := errorsNew (Sprintf format)

/-! ## `FetchDefinition` -/

/-- A step of `for _, fetcher := range append(defaultFetchers, conf.Fetchers...)`
(lines 143-149): `i` is the position of the head of the list still to run.  A
fetcher that returns an error ends the function with `(nil, err)`; when the list
is exhausted the function returns `(zd, nil)`. -/
def rangeFetchers {C : Cloudstack} :
    List (Fetcher C) → Nat → ZoneDefinition C → State C → Outcome C × State C
  | [], _, zd, st => (Outcome.returned (some zd) none, st)
  | fetcher :: rest, i, zd, st =>
    let r := fetcher st.client zd st.world
    let st1 : State C :=
      { client := st.client, world := r.world, events := st.events ++ [Event.fetcher i] }
    match r.err with
    | some err => (Outcome.returned none (some err), st1)
    | none => rangeFetchers rest (i + 1) r.zd st1

/-- Lines 141-149, where the two branches of the lookup meet: `*zone` is
dereferenced (a nil pointer panics), the structure is created and the fetchers
are run. -/
def aggregate {C : Cloudstack} (pkg : Package C) (conf : Config C)
    (zone : Option C.Zone) (st : State C) : Outcome C × State C :=
  match zone with
  | none => (Outcome.panicked, st)
  | some z => rangeFetchers (defaultFetchers pkg ++ conf.Fetchers) 0 (NewZoneDefinition z) st

def FetchDefinition {C : Cloudstack} (pkg : Package C) (conf : Config C) (st : State C) :
    Outcome C × State C :=
  let key := conf.Key
  let secret := conf.Secret
  let scheme := conf.Scheme
  let address := conf.Address
  let path := conf.Path
  let zoneName := conf.ZoneName
  let zoneID := conf.ZoneID
  if key = "" then
    (Outcome.returned none (some (errorsNew "key cannot be empty")), st)
  else if secret = "" then
    (Outcome.returned none (some (errorsNew "secret cannot be empty")), st)
  else if scheme ≠ "" ∧ conf.Scheme ≠ "http" ∧ conf.Scheme ≠ "https" then
    (Outcome.returned none (some (errorsNew "scheme must be http or https")), st)
  else
    let scheme := if scheme = "" then DefaultScheme else scheme
    let address := if address = "" then DefaultAddress else address
    let path := if path = "" then DefaultPath else path
    if zoneName = "" ∧ zoneID = "" then
      (Outcome.returned none (some (errorsNew "zone name or id must be populated")), st)
    else
      -- fmt.Sprintf("%s://%s%s", scheme, address, path)
      let c := NewAsyncClient (scheme ++ "://" ++ address ++ path) key secret false
      let st1 : State C :=
        { client := some c, world := st.world, events := st.events ++ [Event.newAsyncClient c] }
      if zoneID = "" then
        let r := pkg.GetZoneByName c zoneName st1.world
        let st2 : State C :=
          { client := st1.client, world := r.world,
            events := st1.events ++
              [Event.logPrintln ("Attempting to fetch zone " ++ zoneName),
               Event.getZoneByName zoneName] }
        match r.err with
        | some err => (Outcome.returned none (some err), st2)
        | none =>
          if r.count = 0 then
            (Outcome.returned none (some (Errorf ("zone " ++ zoneName ++ " not found"))), st2)
          else aggregate pkg conf r.zone st2
      else
        let r := pkg.GetZoneByID c zoneID st1.world
        let st2 : State C :=
          { client := st1.client, world := r.world,
            events := st1.events ++
              [Event.logPrintln ("Attempting to fetch zone " ++ zoneID),
               Event.getZoneByID zoneID] }
        match r.err with
        | some err => (Outcome.returned none (some err), st2)
        | none =>
          if r.count = 0 then
            (Outcome.returned none (some (Errorf ("zone " ++ zoneID ++ " not found"))), st2)
          else aggregate pkg conf r.zone st2

/-! ## Vocabulary of the properties -/

/-- The four conditions under which validation (lines 99-118) rejects. -/
def invalidConfig {C : Cloudstack} (conf : Config C) : Prop :=
  conf.Key = "" ∨ conf.Secret = "" ∨
    (conf.Scheme ≠ "" ∧ conf.Scheme ≠ "http" ∧ conf.Scheme ≠ "https") ∨
    (conf.ZoneID = "" ∧ conf.ZoneName = "")

instance {C : Cloudstack} (conf : Config C) : Decidable (invalidConfig conf) := by
  unfold invalidConfig; infer_instance

def Event.isLookup : Event → Bool
  | Event.getZoneByName _ => true
  | Event.getZoneByID _ => true
  | _ => false

def Event.isFetcher : Event → Bool
  | Event.fetcher _ => true
  | _ => false

/-- The zone lookups among the calls issued. -/
def lookups (es : List Event) : List Event := es.filter Event.isLookup

/-- The fetcher calls among the calls issued. -/
def fetcherCalls (es : List Event) : List Event := es.filter Event.isFetcher

/-- The endpoint the claim of section 6 describes: every empty part replaced by
its default. -/
def endpointOf {C : Cloudstack} (conf : Config C) : String :=
  (if conf.Scheme = "" then "http" else conf.Scheme) ++ "://" ++
    (if conf.Address = "" then "127.0.0.1:8080" else conf.Address) ++
    (if conf.Path = "" then "/client/api" else conf.Path)

/-- The client handle a valid configuration leads to. -/
def clientOf {C : Cloudstack} (conf : Config C) : CloudStackClient :=
  { apiurl := endpointOf conf, apikey := conf.Key, secret := conf.Secret, verifyssl := false }

/-- The zone selector that is looked up: the identifier when there is one, else
the name. -/
def selectorOf {C : Cloudstack} (conf : Config C) : String :=
  if conf.ZoneID = "" then conf.ZoneName else conf.ZoneID

/-- The lookup call a valid configuration leads to. -/
def lookupEventOf {C : Cloudstack} (conf : Config C) : Event :=
  if conf.ZoneID = "" then Event.getZoneByName conf.ZoneName else Event.getZoneByID conf.ZoneID

/-- The result of the lookup a valid configuration leads to, on world `w`. -/
def lookupOf {C : Cloudstack} (pkg : Package C) (conf : Config C) (w : C.World) :
    LookupResult C :=
  if conf.ZoneID = "" then pkg.GetZoneByName (clientOf conf) conf.ZoneName w
  else pkg.GetZoneByID (clientOf conf) conf.ZoneID w

/-- The calls issued up to and including the zone lookup. -/
def resolveEvents {C : Cloudstack} (conf : Config C) : List Event :=
  [ Event.newAsyncClient (clientOf conf),
    Event.logPrintln ("Attempting to fetch zone " ++ selectorOf conf),
    lookupEventOf conf ]

/-- The state right after the zone lookup of a valid configuration. -/
def resolvedState {C : Cloudstack} (pkg : Package C) (conf : Config C) (st : State C) :
    State C :=
  { client := some (clientOf conf), world := (lookupOf pkg conf st.world).world,
    events := st.events ++ resolveEvents conf }

/-- The messages of the four validation errors (lines 99-118). -/
def validationErrors : List String :=
  [ "key cannot be empty", "secret cannot be empty", "scheme must be http or https",
    "zone name or id must be populated" ]

/-- The calls issued by one run of `FetchDefinition` from state `st`: what the run
appended to the calls recorded before it. -/
def issued {C : Cloudstack} (pkg : Package C) (conf : Config C) (st : State C) : List Event :=
  (FetchDefinition pkg conf st).2.events.drop st.events.length

/-- The shared structure and the remote world after the fetchers of a list have
run one after the other, each on what the one before it left behind. -/
def applyAll {C : Cloudstack} (client : Option CloudStackClient) :
    List (Fetcher C) → ZoneDefinition C × C.World → ZoneDefinition C × C.World
  | [], s => s
  | f :: fs, s => applyAll client fs ((f client s.1 s.2).zd, (f client s.1 s.2).world)

/-- What the fetcher at position `k` of the list returns when it runs after the
`k` fetchers before it (`none` also when there is no such position). -/
def errAt {C : Cloudstack} (client : Option CloudStackClient) (fs : List (Fetcher C))
    (k : Nat) (s : ZoneDefinition C × C.World) : Option (GoError C.RemoteError) :=
  match fs[k]? with
  | none => none
  | some f =>
    (f client (applyAll client (fs.take k) s).1 (applyAll client (fs.take k) s).2).err

/-- All nine collections are initialised and without entries. -/
def allPresentAndEmpty {C : Cloudstack} (zd : ZoneDefinition C) : Prop :=
  zd.Pods.presentAndEmpty ∧ zd.Clusters.presentAndEmpty ∧ zd.Hosts.presentAndEmpty ∧
  zd.PrimaryStoragePools.presentAndEmpty ∧ zd.SecondaryStoragePools.presentAndEmpty ∧
  zd.PhysicalNetworks.presentAndEmpty ∧ zd.ComputeOfferings.presentAndEmpty ∧
  zd.DiskOfferings.presentAndEmpty ∧ zd.GlobalConfigs.presentAndEmpty

/-! ## A small installation used to instantiate the properties -/

/-- Zones are their names, errors are messages, the remote world counts the
calls it has served. -/
abbrev demoCloud : Cloudstack :=
  { Zone := String, Pod := Unit, Cluster := Unit, Host := Unit, StoragePool := Unit,
    ImageStore := Unit, PhysicalNetwork := Unit, TrafficType := Unit, Network := Unit,
    ServiceOffering := Unit, DiskOffering := Unit, Configuration := Unit,
    RemoteError := String, World := Nat }

/-- A fetcher that finds nothing to add. -/
def demoIdle : Fetcher demoCloud :=
  fun _ zd w => { zd := zd, world := w + 1, err := none }

/-- A fetcher that fails. -/
def demoFailing (msg : String) : Fetcher demoCloud :=
  fun _ zd w => { zd := zd, world := w + 1, err := some (GoError.remote msg) }

/-- A lookup that answers with the given count: the zone itself when the count is
not zero. -/
def demoLookup (count : Int) (err : Option (GoError String)) :
    CloudStackClient → String → Nat → LookupResult demoCloud :=
  fun _ sel w =>
    { zone := if count = 0 then none else some sel, count := count, err := err, world := w + 1 }

/-- An installation whose lookups answer with the given count and error and whose
built-in fetchers find nothing. -/
def demoPackage (count : Int) (err : Option (GoError String)) : Package demoCloud :=
  { GetZoneByName := demoLookup count err
    GetZoneByID := demoLookup count err
    fetchPods := demoIdle
    fetchClusters := demoIdle
    fetchHosts := demoIdle
    fetchPrimaryStoragePools := demoIdle
    fetchSecondaryStoragePools := demoIdle
    fetchPhysicalNetworks := demoIdle
    fetchComputeOfferings := demoIdle
    fetchDiskOfferings := demoIdle
    fetchGlobalConfigs := demoIdle }

/-- An installation whose first built-in fetcher fails. -/
def demoPackageFailing (msg : String) : Package demoCloud :=
  { demoPackage 1 none with fetchPods := demoFailing msg }

/-- An installation whose third built-in fetcher, `fetchHosts`, fails. -/
def demoPackageHostsFailing (msg : String) : Package demoCloud :=
  { demoPackage 1 none with fetchHosts := demoFailing msg }

/-- A fetcher that lists the pods of the remote: the remote has a pod only once it
has served 999 calls. -/
def demoListPods : Fetcher demoCloud :=
  fun _ zd w =>
    { zd := if w = 999 then { zd with Pods := some [("pod1", ())] } else zd,
      world := w + 1, err := none }

/-- An installation whose `fetchPods` lists the remote. -/
def demoPackageListing : Package demoCloud :=
  { demoPackage 1 none with fetchPods := demoListPods }

/-- The configuration `config{key, secret, zoneName}` of the scenarios. -/
def demoConfig (key secret zoneID zoneName : String) : Config demoCloud :=
  { Key := key, Secret := secret, Scheme := "", Address := "", Path := "",
    ZoneID := zoneID, ZoneName := zoneName, Fetchers := [] }

def demoState : State demoCloud := { client := none, world := 0, events := [] }

/-- A run that was rejected during validation: it returned `(nil, err)` with one
of the four validation errors and left the state untouched (no client built, no
log line, no lookup, no fetcher call). -/
def rejectedInValidation {C : Cloudstack} (r : Outcome C × State C) (st : State C) : Prop :=
  ∃ msg, msg ∈ validationErrors ∧ r = (Outcome.returned none (some (errorsNew msg)), st)

/-- The configuration `demoConfig` with a scheme. -/
def demoConfigScheme (key secret scheme zoneID zoneName : String) : Config demoCloud :=
  { Key := key, Secret := secret, Scheme := scheme, Address := "", Path := "",
    ZoneID := zoneID, ZoneName := zoneName, Fetchers := [] }

/-- The list the loop ranges over: `append(defaultFetchers, conf.Fetchers...)`. -/
def allFetchers {C : Cloudstack} (pkg : Package C) (conf : Config C) : List (Fetcher C) :=
  defaultFetchers pkg ++ conf.Fetchers

/-- The shared structure and the world the first fetcher works on after a lookup
that found zone `z`. -/
def seed {C : Cloudstack} (pkg : Package C) (conf : Config C) (st : State C) (z : C.Zone) :
    ZoneDefinition C × C.World :=
  (NewZoneDefinition z, (lookupOf pkg conf st.world).world)

/-- Calls of the client constructor. -/
def Event.isNewClient : Event → Bool
  | Event.newAsyncClient _ => true
  | _ => false

/-! ## The shape of `FetchDefinition` case by case -/

theorem fetch_key_empty {C : Cloudstack} (pkg : Package C) (conf : Config C) (st : State C)
    (h : conf.Key = "") :
    FetchDefinition pkg conf st =
      (Outcome.returned none (some (errorsNew "key cannot be empty")), st) := by
  simp [FetchDefinition, h]

theorem fetch_secret_empty {C : Cloudstack} (pkg : Package C) (conf : Config C) (st : State C)
    (hk : conf.Key ≠ "") (h : conf.Secret = "") :
    FetchDefinition pkg conf st =
      (Outcome.returned none (some (errorsNew "secret cannot be empty")), st) := by
  simp [FetchDefinition, h, hk]

theorem fetch_scheme_bad {C : Cloudstack} (pkg : Package C) (conf : Config C) (st : State C)
    (hk : conf.Key ≠ "") (hs : conf.Secret ≠ "")
    (h : conf.Scheme ≠ "" ∧ conf.Scheme ≠ "http" ∧ conf.Scheme ≠ "https") :
    FetchDefinition pkg conf st =
      (Outcome.returned none (some (errorsNew "scheme must be http or https")), st) := by
  simp [FetchDefinition, h, hk, hs]

theorem fetch_zone_empty {C : Cloudstack} (pkg : Package C) (conf : Config C) (st : State C)
    (hk : conf.Key ≠ "") (hs : conf.Secret ≠ "")
    (hsc : ¬ (conf.Scheme ≠ "" ∧ conf.Scheme ≠ "http" ∧ conf.Scheme ≠ "https"))
    (h : conf.ZoneName = "" ∧ conf.ZoneID = "") :
    FetchDefinition pkg conf st =
      (Outcome.returned none (some (errorsNew "zone name or id must be populated")), st) := by
  unfold FetchDefinition
  simp only [hk, hs, hsc, h, if_true, if_false, and_self]

/-- The `FetchDefinition` of a configuration that passes validation: the client is
built, the lookup is issued, and its three results are examined in the order
error, zero count, zone pointer. -/
theorem fetch_valid {C : Cloudstack} (pkg : Package C) (conf : Config C) (st : State C)
    (h : ¬ invalidConfig conf) :
    FetchDefinition pkg conf st =
      match (lookupOf pkg conf st.world).err with
      | some err => (Outcome.returned none (some err), resolvedState pkg conf st)
      | none =>
        if (lookupOf pkg conf st.world).count = 0 then
          (Outcome.returned none (some (Errorf ("zone " ++ selectorOf conf ++ " not found"))),
            resolvedState pkg conf st)
        else aggregate pkg conf (lookupOf pkg conf st.world).zone (resolvedState pkg conf st) := by
  simp only [invalidConfig, not_or] at h
  obtain ⟨hk, hs, hsc, hz⟩ := h
  have hz2 : ¬ (conf.ZoneName = "" ∧ conf.ZoneID = "") := fun hh => hz ⟨hh.2, hh.1⟩
  unfold FetchDefinition
  simp only [hk, hs, hsc, hz2, if_false]
  by_cases hid : conf.ZoneID = ""
  · simp only [hid, if_true, lookupOf, resolvedState, selectorOf, lookupEventOf, resolveEvents,
      clientOf, endpointOf, NewAsyncClient, DefaultScheme, DefaultAddress, DefaultPath,
      List.append_assoc, List.singleton_append]
  · simp only [hid, if_false, lookupOf, resolvedState, selectorOf, lookupEventOf, resolveEvents,
      clientOf, endpointOf, NewAsyncClient, DefaultScheme, DefaultAddress, DefaultPath,
      List.append_assoc, List.singleton_append]

/-! ## The loop -/

theorem rangeFetchers_events {C : Cloudstack} (fs : List (Fetcher C)) :
    ∀ (i : Nat) (zd : ZoneDefinition C) (st : State C),
      ∃ rest, (rangeFetchers fs i zd st).2.events = st.events ++ rest ∧
        ∀ e ∈ rest, e.isFetcher = true := by
  induction fs with
  | nil => intro i zd st; exact ⟨[], by simp [rangeFetchers]⟩
  | cons f fs ih =>
    intro i zd st
    unfold rangeFetchers
    cases herr : (f st.client zd st.world).err with
    | some e =>
      refine ⟨[Event.fetcher i], ?_, ?_⟩
      · simp only [herr]
      · intro e he; simp at he; subst he; rfl
    | none =>
      obtain ⟨rest, h1, h2⟩ := ih (i + 1) (f st.client zd st.world).zd
        { client := st.client, world := (f st.client zd st.world).world,
          events := st.events ++ [Event.fetcher i] }
      refine ⟨Event.fetcher i :: rest, ?_, ?_⟩
      · simp only [herr, h1, List.append_assoc, List.singleton_append]
      · intro e he
        rcases List.mem_cons.1 he with rfl | he
        · rfl
        · exact h2 e he

theorem aggregate_events {C : Cloudstack} (pkg : Package C) (conf : Config C)
    (zone : Option C.Zone) (st : State C) :
    ∃ rest, (aggregate pkg conf zone st).2.events = st.events ++ rest ∧
      ∀ e ∈ rest, e.isFetcher = true := by
  cases zone with
  | none => exact ⟨[], by simp [aggregate]⟩
  | some z => exact rangeFetchers_events _ 0 _ st

/-- The calls of a configuration that passes validation: the client constructor,
the log line, the lookup, then fetcher calls only. -/
theorem fetch_valid_events {C : Cloudstack} (pkg : Package C) (conf : Config C) (st : State C)
    (h : ¬ invalidConfig conf) :
    ∃ rest, (FetchDefinition pkg conf st).2.events = st.events ++ (resolveEvents conf ++ rest) ∧
      ∀ e ∈ rest, e.isFetcher = true := by
  rw [fetch_valid pkg conf st h]
  cases herr : (lookupOf pkg conf st.world).err with
  | some e => exact ⟨[], by simp [resolvedState]⟩
  | none =>
    by_cases hc : (lookupOf pkg conf st.world).count = 0
    · exact ⟨[], by simp [hc, resolvedState]⟩
    · obtain ⟨rest, h1, h2⟩ :=
        aggregate_events pkg conf (lookupOf pkg conf st.world).zone (resolvedState pkg conf st)
      refine ⟨rest, ?_, h2⟩
      simp only [hc, if_false]
      rw [h1]
      simp only [resolvedState, List.append_assoc]

/-- A rejected configuration leaves the state as it was. -/
theorem fetch_invalid {C : Cloudstack} (pkg : Package C) (conf : Config C) (st : State C)
    (h : invalidConfig conf) :
    ∃ msg, msg ∈ validationErrors ∧
      FetchDefinition pkg conf st = (Outcome.returned none (some (errorsNew msg)), st) := by
  by_cases hk : conf.Key = ""
  · exact ⟨_, by simp [validationErrors], fetch_key_empty pkg conf st hk⟩
  by_cases hs : conf.Secret = ""
  · exact ⟨_, by simp [validationErrors], fetch_secret_empty pkg conf st hk hs⟩
  by_cases hsc : conf.Scheme ≠ "" ∧ conf.Scheme ≠ "http" ∧ conf.Scheme ≠ "https"
  · exact ⟨_, by simp [validationErrors], fetch_scheme_bad pkg conf st hk hs hsc⟩
  have hz : conf.ZoneName = "" ∧ conf.ZoneID = "" := by
    rcases h with h | h | h | h
    · exact absurd h hk
    · exact absurd h hs
    · exact absurd h hsc
    · exact ⟨h.2, h.1⟩
  exact ⟨_, by simp [validationErrors], fetch_zone_empty pkg conf st hk hs hsc hz⟩

/-- A run only appends to the calls recorded before it. -/
theorem events_extend {C : Cloudstack} (pkg : Package C) (conf : Config C) (st : State C) :
    (FetchDefinition pkg conf st).2.events = st.events ++ issued pkg conf st := by
  unfold issued
  by_cases h : invalidConfig conf
  · obtain ⟨msg, _, hm⟩ := fetch_invalid pkg conf st h
    simp [hm]
  · obtain ⟨rest, h1, _⟩ := fetch_valid_events pkg conf st h
    rw [h1, List.drop_left]

theorem issued_invalid {C : Cloudstack} (pkg : Package C) (conf : Config C) (st : State C)
    (h : invalidConfig conf) : issued pkg conf st = [] := by
  obtain ⟨msg, _, hm⟩ := fetch_invalid pkg conf st h
  simp [issued, hm]

theorem issued_valid {C : Cloudstack} (pkg : Package C) (conf : Config C) (st : State C)
    (h : ¬ invalidConfig conf) :
    ∃ rest, issued pkg conf st = resolveEvents conf ++ rest ∧ ∀ e ∈ rest, e.isFetcher = true := by
  obtain ⟨rest, h1, h2⟩ := fetch_valid_events pkg conf st h
  exact ⟨rest, by rw [issued, h1, List.drop_left], h2⟩

/-! ## Calls issued -/

theorem lookups_of_fetchers (rest : List Event) (h : ∀ e ∈ rest, e.isFetcher = true) :
    lookups rest = [] := by
  unfold lookups
  rw [List.filter_eq_nil_iff]
  intro e he
  have := h e he
  cases e <;> simp_all [Event.isFetcher, Event.isLookup]

theorem lookups_resolveEvents {C : Cloudstack} (conf : Config C) :
    lookups (resolveEvents conf) = [lookupEventOf conf] := by
  unfold lookups resolveEvents lookupEventOf
  by_cases h : conf.ZoneID = "" <;> simp [h, List.filter, Event.isLookup]

theorem fetcherCalls_resolveEvents {C : Cloudstack} (conf : Config C) :
    fetcherCalls (resolveEvents conf) = [] := by
  unfold fetcherCalls resolveEvents lookupEventOf
  by_cases h : conf.ZoneID = "" <;> simp [h, List.filter, Event.isFetcher]

theorem lookups_issued_valid {C : Cloudstack} (pkg : Package C) (conf : Config C) (st : State C)
    (h : ¬ invalidConfig conf) : lookups (issued pkg conf st) = [lookupEventOf conf] := by
  obtain ⟨rest, h1, h2⟩ := issued_valid pkg conf st h
  have h3 := lookups_of_fetchers rest h2
  have h4 := lookups_resolveEvents conf
  unfold lookups at h3 h4 ⊢
  rw [h1, List.filter_append, h3, h4, List.append_nil]

/-! ## Validation -/

/-- C1: `FetchDefinition` rejects a configuration during validation exactly when
the key is empty, the secret is empty, the scheme is non-empty and neither
http nor https, or both zone selectors are empty.  A rejected configuration
gets `(nil, err)` and no call at all is issued (no lookup, no fetcher); an empty
key gets the error `key cannot be empty`.  Every other configuration issues
exactly one zone lookup. -/
theorem FetchDefinition_validation {C : Cloudstack} (pkg : Package C) (conf : Config C)
    (st : State C) :
    (invalidConfig conf ↔ rejectedInValidation (FetchDefinition pkg conf st) st) ∧
    (invalidConfig conf → issued pkg conf st = []) ∧
    (conf.Key = "" → (FetchDefinition pkg conf st).1 =
      Outcome.returned none (some (errorsNew "key cannot be empty"))) ∧
    (¬ invalidConfig conf → (lookups (issued pkg conf st)).length = 1) := by
  refine ⟨⟨fun h => fetch_invalid pkg conf st h, ?_⟩, issued_invalid pkg conf st, ?_, ?_⟩
  · rintro ⟨msg, _, hm⟩
    by_contra hv
    obtain ⟨rest, h1, _⟩ := fetch_valid_events pkg conf st hv
    rw [hm] at h1
    have h2 := congrArg List.length h1
    simp [resolveEvents] at h2
  · intro hk
    rw [fetch_key_empty pkg conf st hk]
  · intro hv
    rw [lookups_issued_valid pkg conf st hv]
    rfl

theorem FetchDefinition_validation_witness :
    (FetchDefinition (demoPackage 1 none) (demoConfig "" "s" "" "Zone1") demoState).1 =
        Outcome.returned none (some (errorsNew "key cannot be empty")) ∧
      issued (demoPackage 1 none) (demoConfig "" "s" "" "Zone1") demoState = [] ∧
      (lookups (issued (demoPackage 1 none) (demoConfig "k" "s" "" "Zone1") demoState)).length
        = 1 :=
  ⟨(FetchDefinition_validation (demoPackage 1 none) (demoConfig "" "s" "" "Zone1")
      demoState).2.2.1 rfl,
    (FetchDefinition_validation (demoPackage 1 none) (demoConfig "" "s" "" "Zone1")
      demoState).2.1 (Or.inl rfl),
    (FetchDefinition_validation (demoPackage 1 none) (demoConfig "k" "s" "" "Zone1")
      demoState).2.2.2 (by decide)⟩

/-- C2, as stated, fails: a configuration with the unsupported scheme `ftp` and an
empty key is rejected with the key error, not with the scheme error. -/
theorem scheme_error_not_for_every_config :
    ((demoConfigScheme "" "s" "ftp" "" "Zone1").Scheme ≠ "" ∧
      (demoConfigScheme "" "s" "ftp" "" "Zone1").Scheme ≠ "http" ∧
      (demoConfigScheme "" "s" "ftp" "" "Zone1").Scheme ≠ "https") ∧
    (FetchDefinition (demoPackage 1 none) (demoConfigScheme "" "s" "ftp" "" "Zone1")
        demoState).1 ≠
      Outcome.returned none (some (errorsNew "scheme must be http or https")) := by
  refine ⟨by decide, ?_⟩
  rw [fetch_key_empty _ _ _ rfl]
  simp [errorsNew]

/-- C2, amended: for every configuration with a non-empty key and a non-empty
secret whose scheme is a non-empty string other than http and https,
`FetchDefinition` fails with the error `scheme must be http or https` and
issues no call. -/
theorem FetchDefinition_scheme_error {C : Cloudstack} (pkg : Package C) (conf : Config C)
    (st : State C) (hk : conf.Key ≠ "") (hs : conf.Secret ≠ "")
    (h : conf.Scheme ≠ "" ∧ conf.Scheme ≠ "http" ∧ conf.Scheme ≠ "https") :
    (FetchDefinition pkg conf st).1 =
        Outcome.returned none (some (errorsNew "scheme must be http or https")) ∧
      issued pkg conf st = [] :=
  ⟨by rw [fetch_scheme_bad pkg conf st hk hs h],
    issued_invalid pkg conf st (Or.inr (Or.inr (Or.inl h)))⟩

theorem FetchDefinition_scheme_error_witness :
    (FetchDefinition (demoPackage 1 none) (demoConfigScheme "k" "s" "ftp" "" "Zone1")
        demoState).1 =
        Outcome.returned none (some (errorsNew "scheme must be http or https")) ∧
      issued (demoPackage 1 none) (demoConfigScheme "k" "s" "ftp" "" "Zone1") demoState = [] :=
  FetchDefinition_scheme_error (demoPackage 1 none) (demoConfigScheme "k" "s" "ftp" "" "Zone1")
    demoState (by decide) (by decide) (by decide)

/-- C3, as stated, fails: a configuration with both zone selectors empty and an
unsupported scheme is rejected with the scheme error, not with the zone-selector
error. -/
theorem zone_error_not_for_every_config :
    ((demoConfigScheme "k" "s" "ftp" "" "").ZoneName = "" ∧
      (demoConfigScheme "k" "s" "ftp" "" "").ZoneID = "") ∧
    (FetchDefinition (demoPackage 1 none) (demoConfigScheme "k" "s" "ftp" "" "")
        demoState).1 ≠
      Outcome.returned none (some (errorsNew "zone name or id must be populated")) := by
  refine ⟨by decide, ?_⟩
  rw [fetch_scheme_bad _ _ _ (by decide) (by decide) (by decide)]
  simp [errorsNew]

/-- C3, amended: for every configuration with a non-empty key, a non-empty secret
and a scheme that is empty, http or https, in which zone name and zone identifier
are both empty, `FetchDefinition` fails with the error
`zone name or id must be populated` and issues no call. -/
theorem FetchDefinition_zone_error {C : Cloudstack} (pkg : Package C) (conf : Config C)
    (st : State C) (hk : conf.Key ≠ "") (hs : conf.Secret ≠ "")
    (hsc : conf.Scheme = "" ∨ conf.Scheme = "http" ∨ conf.Scheme = "https")
    (h : conf.ZoneName = "" ∧ conf.ZoneID = "") :
    (FetchDefinition pkg conf st).1 =
        Outcome.returned none (some (errorsNew "zone name or id must be populated")) ∧
      issued pkg conf st = [] := by
  have hsc2 : ¬ (conf.Scheme ≠ "" ∧ conf.Scheme ≠ "http" ∧ conf.Scheme ≠ "https") := by
    rintro ⟨h1, h2, h3⟩
    rcases hsc with h | h | h
    · exact h1 h
    · exact h2 h
    · exact h3 h
  exact ⟨by rw [fetch_zone_empty pkg conf st hk hs hsc2 h],
    issued_invalid pkg conf st (Or.inr (Or.inr (Or.inr ⟨h.2, h.1⟩)))⟩

theorem FetchDefinition_zone_error_witness :
    (FetchDefinition (demoPackage 1 none) (demoConfigScheme "k" "s" "https" "" "")
        demoState).1 =
        Outcome.returned none (some (errorsNew "zone name or id must be populated")) ∧
      issued (demoPackage 1 none) (demoConfigScheme "k" "s" "https" "" "") demoState = [] :=
  FetchDefinition_zone_error (demoPackage 1 none) (demoConfigScheme "k" "s" "https" "" "")
    demoState (by decide) (by decide) (Or.inr (Or.inr rfl)) ⟨rfl, rfl⟩

/-! ## Zone resolution -/

theorem rangeFetchers_client {C : Cloudstack} (fs : List (Fetcher C)) :
    ∀ (i : Nat) (zd : ZoneDefinition C) (st : State C),
      (rangeFetchers fs i zd st).2.client = st.client := by
  induction fs with
  | nil => intro i zd st; rfl
  | cons f fs ih =>
    intro i zd st
    unfold rangeFetchers
    cases herr : (f st.client zd st.world).err with
    | some e => simp only [herr]
    | none => simp only [herr, ih]

theorem fetch_valid_client {C : Cloudstack} (pkg : Package C) (conf : Config C) (st : State C)
    (h : ¬ invalidConfig conf) :
    (FetchDefinition pkg conf st).2.client = some (clientOf conf) := by
  rw [fetch_valid pkg conf st h]
  cases herr : (lookupOf pkg conf st.world).err with
  | some e => rfl
  | none =>
    by_cases hc : (lookupOf pkg conf st.world).count = 0
    · simp [hc, resolvedState]
    · simp only [hc, if_false]
      cases hz : (lookupOf pkg conf st.world).zone with
      | none => rfl
      | some z => simp only [aggregate, rangeFetchers_client]; rfl

theorem fetch_lookup_error {C : Cloudstack} (pkg : Package C) (conf : Config C) (st : State C)
    (h : ¬ invalidConfig conf) (e : GoError C.RemoteError)
    (he : (lookupOf pkg conf st.world).err = some e) :
    FetchDefinition pkg conf st = (Outcome.returned none (some e), resolvedState pkg conf st) := by
  rw [fetch_valid pkg conf st h, he]

/-- C4: a configuration that passes validation and has a non-empty `ZoneID` is
resolved with `GetZoneByID(ZoneID)` and without any call of the name-based
lookup: the only lookup issued is `GetZoneByID(ZoneID)`, the run is the same
whatever the name-based lookup would answer, and it is the same for every value
of `ZoneName`.  With an empty `ZoneID` the only lookup issued is
`GetZoneByName(ZoneName)` and the run is the same whatever the identifier-based
lookup would answer. -/
theorem FetchDefinition_lookup_choice {C : Cloudstack} (pkg : Package C) (conf : Config C)
    (st : State C) (h : ¬ invalidConfig conf) :
    (conf.ZoneID ≠ "" →
      lookups (issued pkg conf st) = [Event.getZoneByID conf.ZoneID] ∧
      (∀ byName, FetchDefinition { pkg with GetZoneByName := byName } conf st =
        FetchDefinition pkg conf st) ∧
      (∀ name, FetchDefinition pkg { conf with ZoneName := name } st =
        FetchDefinition pkg conf st)) ∧
    (conf.ZoneID = "" →
      lookups (issued pkg conf st) = [Event.getZoneByName conf.ZoneName] ∧
      (∀ byID, FetchDefinition { pkg with GetZoneByID := byID } conf st =
        FetchDefinition pkg conf st)) := by
  constructor
  · intro hid
    refine ⟨?_, ?_, ?_⟩
    · rw [lookups_issued_valid pkg conf st h]; simp [lookupEventOf, hid]
    · intro byName
      simp [FetchDefinition, hid, aggregate, defaultFetchers]
    · intro name
      simp [FetchDefinition, hid, aggregate]
  · intro hid
    refine ⟨?_, ?_⟩
    · rw [lookups_issued_valid pkg conf st h]; simp [lookupEventOf, hid]
    · intro byID
      simp [FetchDefinition, hid, aggregate, defaultFetchers]

theorem FetchDefinition_lookup_choice_witness :
    lookups (issued (demoPackage 1 none) (demoConfig "k" "s" "id-1" "Zone1") demoState) =
        [Event.getZoneByID "id-1"] ∧
      FetchDefinition (demoPackage 1 none)
          { demoConfig "k" "s" "id-1" "Zone1" with ZoneName := "Other" } demoState =
        FetchDefinition (demoPackage 1 none) (demoConfig "k" "s" "id-1" "Zone1") demoState ∧
      lookups (issued (demoPackage 1 none) (demoConfig "k" "s" "" "Zone1") demoState) =
        [Event.getZoneByName "Zone1"] :=
  ⟨((FetchDefinition_lookup_choice (demoPackage 1 none) (demoConfig "k" "s" "id-1" "Zone1")
      demoState (by decide)).1 (by decide)).1,
    ((FetchDefinition_lookup_choice (demoPackage 1 none) (demoConfig "k" "s" "id-1" "Zone1")
      demoState (by decide)).1 (by decide)).2.2 "Other",
    ((FetchDefinition_lookup_choice (demoPackage 1 none) (demoConfig "k" "s" "" "Zone1")
      demoState (by decide)).2 rfl).1⟩

/-- C6, as stated, fails: when the lookup answers with a zone, a match count of two
and no error, `FetchDefinition` does not fail; it runs the nine built-in fetchers
and returns the structure. -/
theorem ambiguous_count_not_rejected :
    ¬ invalidConfig (demoConfig "k" "s" "" "Zone1") ∧
    (lookupOf (demoPackage 2 none) (demoConfig "k" "s" "" "Zone1") demoState.world).count > 1 ∧
    (FetchDefinition (demoPackage 2 none) (demoConfig "k" "s" "" "Zone1") demoState).1 =
      Outcome.returned (some (NewZoneDefinition "Zone1")) none ∧
    fetcherCalls (issued (demoPackage 2 none) (demoConfig "k" "s" "" "Zone1") demoState) =
      (List.range 9).map Event.fetcher := by
  refine ⟨by decide, by decide, rfl, by decide⟩

/-- C6, amended: for every configuration that passes validation, if the lookup
reports a match count greater than one together with an error, `FetchDefinition`
fails with that error, returns no structure and invokes no fetcher. -/
theorem FetchDefinition_ambiguous_error {C : Cloudstack} (pkg : Package C) (conf : Config C)
    (st : State C) (h : ¬ invalidConfig conf) (e : GoError C.RemoteError)
    (_hc : (lookupOf pkg conf st.world).count > 1)
    (he : (lookupOf pkg conf st.world).err = some e) :
    (FetchDefinition pkg conf st).1 = Outcome.returned none (some e) ∧
      fetcherCalls (issued pkg conf st) = [] := by
  have hf := fetch_lookup_error pkg conf st h e he
  refine ⟨by rw [hf], ?_⟩
  have hi : issued pkg conf st = resolveEvents conf := by
    simp [issued, hf, resolvedState]
  rw [hi, fetcherCalls_resolveEvents]

theorem FetchDefinition_ambiguous_error_witness :
    (FetchDefinition (demoPackage 2 (some (GoError.remote "more than one result")))
        (demoConfig "k" "s" "" "Zone1") demoState).1 =
        Outcome.returned none (some (GoError.remote "more than one result")) ∧
      fetcherCalls (issued (demoPackage 2 (some (GoError.remote "more than one result")))
        (demoConfig "k" "s" "" "Zone1") demoState) = [] :=
  FetchDefinition_ambiguous_error (demoPackage 2 (some (GoError.remote "more than one result")))
    (demoConfig "k" "s" "" "Zone1") demoState (by decide) (GoError.remote "more than one result")
    (by decide) rfl

/-! ## The fetch phase -/

theorem errAt_cons_zero {C : Cloudstack} (cl : Option CloudStackClient) (f : Fetcher C)
    (fs : List (Fetcher C)) (s : ZoneDefinition C × C.World) :
    errAt cl (f :: fs) 0 s = (f cl s.1 s.2).err := by
  simp [errAt, applyAll]

theorem errAt_cons_succ {C : Cloudstack} (cl : Option CloudStackClient) (f : Fetcher C)
    (fs : List (Fetcher C)) (k : Nat) (s : ZoneDefinition C × C.World) :
    errAt cl (f :: fs) (k + 1) s = errAt cl fs k ((f cl s.1 s.2).zd, (f cl s.1 s.2).world) := by
  simp [errAt, applyAll]

/-- The loop when no fetcher fails: every fetcher has run once, in order, each on
what the previous one left, and the shared structure is returned. -/
theorem rangeFetchers_all_ok {C : Cloudstack} (fs : List (Fetcher C)) :
    ∀ (i0 : Nat) (zd : ZoneDefinition C) (st : State C),
      (∀ j, j < fs.length → errAt st.client fs j (zd, st.world) = none) →
      rangeFetchers fs i0 zd st =
        (Outcome.returned (some (applyAll st.client fs (zd, st.world)).1) none,
          { client := st.client, world := (applyAll st.client fs (zd, st.world)).2,
            events := st.events ++ (List.range' i0 fs.length).map Event.fetcher }) := by
  induction fs with
  | nil => intro i0 zd st _; simp [rangeFetchers, applyAll]
  | cons f fs ih =>
    intro i0 zd st hok
    have h0 := hok 0 (by simp)
    rw [errAt_cons_zero] at h0
    have hrest : ∀ j, j < fs.length →
        errAt st.client fs j ((f st.client zd st.world).zd, (f st.client zd st.world).world)
          = none := by
      intro j hj
      have := hok (j + 1) (by simpa using hj)
      rwa [errAt_cons_succ] at this
    have := ih (i0 + 1) (f st.client zd st.world).zd
      { client := st.client, world := (f st.client zd st.world).world,
        events := st.events ++ [Event.fetcher i0] } hrest
    unfold rangeFetchers
    simp only [] at h0
    simp only [h0, this, applyAll, List.length_cons, List.range'_succ, List.map_cons,
      List.append_assoc, List.singleton_append]

/-- The loop when the fetcher at position `i` is the first to fail: the fetchers
up to `i` have run once, in order, none after `i`, and the error is returned. -/
theorem rangeFetchers_first_error {C : Cloudstack} (fs : List (Fetcher C)) :
    ∀ (i0 : Nat) (zd : ZoneDefinition C) (st : State C) (i : Nat) (e : GoError C.RemoteError),
      (∀ j, j < i → errAt st.client fs j (zd, st.world) = none) →
      errAt st.client fs i (zd, st.world) = some e →
      rangeFetchers fs i0 zd st =
        (Outcome.returned none (some e),
          { client := st.client,
            world := (applyAll st.client (fs.take (i + 1)) (zd, st.world)).2,
            events := st.events ++ (List.range' i0 (i + 1)).map Event.fetcher }) := by
  induction fs with
  | nil => intro i0 zd st i e _ he; simp [errAt] at he
  | cons f fs ih =>
    intro i0 zd st i e hok he
    cases i with
    | zero =>
      rw [errAt_cons_zero] at he
      unfold rangeFetchers
      simp only [] at he
      simp [he, applyAll]
    | succ i =>
      have h0 := hok 0 (by simp)
      rw [errAt_cons_zero] at h0
      rw [errAt_cons_succ] at he
      have hrest : ∀ j, j < i →
          errAt st.client fs j ((f st.client zd st.world).zd, (f st.client zd st.world).world)
            = none := by
        intro j hj
        have := hok (j + 1) (by simpa using hj)
        rwa [errAt_cons_succ] at this
      have := ih (i0 + 1) (f st.client zd st.world).zd
        { client := st.client, world := (f st.client zd st.world).world,
          events := st.events ++ [Event.fetcher i0] } i e hrest he
      unfold rangeFetchers
      simp only [] at h0
      simp only [h0, this, applyAll, List.take_succ_cons, List.range'_succ, List.map_cons,
        List.append_assoc, List.singleton_append]

/-- The run of a valid configuration whose lookup found a zone is the loop over
`append(defaultFetchers, conf.Fetchers...)`, started on a fresh structure. -/
theorem fetch_resolved {C : Cloudstack} (pkg : Package C) (conf : Config C) (st : State C)
    (h : ¬ invalidConfig conf) (z : C.Zone)
    (herr : (lookupOf pkg conf st.world).err = none)
    (hcount : (lookupOf pkg conf st.world).count ≠ 0)
    (hzone : (lookupOf pkg conf st.world).zone = some z) :
    FetchDefinition pkg conf st =
      rangeFetchers (allFetchers pkg conf) 0 (NewZoneDefinition z) (resolvedState pkg conf st) := by
  rw [fetch_valid pkg conf st h, herr]
  simp only [hcount, if_false, hzone, aggregate, allFetchers]

/-- C7: after a successful zone resolution (no error, a non-zero count, a zone
`z`) the fetch phase is a short-circuiting left-to-right run of the list
`fetchPods, fetchClusters, fetchHosts, fetchPrimaryStoragePools,
fetchSecondaryStoragePools, fetchPhysicalNetworks, fetchComputeOfferings,
fetchDiskOfferings, fetchGlobalConfigs` followed by `conf.Fetchers`, over one
shared structure that starts as `NewZoneDefinition z`; each fetcher works on what
the ones before it left.  If the fetcher at position `i` is the first to return an error `e`, the
fetchers at positions `0..i` have been called once each, in that order, none
after `i`, and the result is `(nil, e)`.  If none fails, every fetcher has been
called exactly once, in order, and the result is the shared structure and a nil
error. -/
theorem FetchDefinition_fetch_phase {C : Cloudstack} (pkg : Package C) (conf : Config C)
    (st : State C) (h : ¬ invalidConfig conf) (z : C.Zone)
    (herr : (lookupOf pkg conf st.world).err = none)
    (hcount : (lookupOf pkg conf st.world).count ≠ 0)
    (hzone : (lookupOf pkg conf st.world).zone = some z) :
    allFetchers pkg conf =
      [ pkg.fetchPods, pkg.fetchClusters, pkg.fetchHosts, pkg.fetchPrimaryStoragePools,
        pkg.fetchSecondaryStoragePools, pkg.fetchPhysicalNetworks, pkg.fetchComputeOfferings,
        pkg.fetchDiskOfferings, pkg.fetchGlobalConfigs ] ++ conf.Fetchers ∧
    (defaultFetchers pkg).length = 9 ∧
    (∀ k, k < 9 → (allFetchers pkg conf)[k]? = (defaultFetchers pkg)[k]?) ∧
    (∀ k, (allFetchers pkg conf)[9 + k]? = conf.Fetchers[k]?) ∧
    (∀ i e,
      (∀ j, j < i →
        errAt (some (clientOf conf)) (allFetchers pkg conf) j (seed pkg conf st z) = none) →
      errAt (some (clientOf conf)) (allFetchers pkg conf) i (seed pkg conf st z) = some e →
      FetchDefinition pkg conf st =
        (Outcome.returned none (some e),
          { client := some (clientOf conf),
            world := (applyAll (some (clientOf conf)) ((allFetchers pkg conf).take (i + 1))
              (seed pkg conf st z)).2,
            events := st.events ++ resolveEvents conf ++
              (List.range (i + 1)).map Event.fetcher })) ∧
    ((∀ j, j < (allFetchers pkg conf).length →
        errAt (some (clientOf conf)) (allFetchers pkg conf) j (seed pkg conf st z) = none) →
      FetchDefinition pkg conf st =
        (Outcome.returned
            (some (applyAll (some (clientOf conf)) (allFetchers pkg conf)
              (seed pkg conf st z)).1) none,
          { client := some (clientOf conf),
            world := (applyAll (some (clientOf conf)) (allFetchers pkg conf)
              (seed pkg conf st z)).2,
            events := st.events ++ resolveEvents conf ++
              (List.range (allFetchers pkg conf).length).map Event.fetcher })) := by
  have hlen : (defaultFetchers pkg).length = 9 := rfl
  refine ⟨rfl, hlen, ?_, ?_, ?_, ?_⟩
  · intro k hk
    unfold allFetchers
    rw [List.getElem?_append_left (by omega)]
  · intro k
    unfold allFetchers
    rw [List.getElem?_append_right (by omega)]
    simp [hlen]
  · intro i e hok he
    rw [fetch_resolved pkg conf st h z herr hcount hzone,
      rangeFetchers_first_error (allFetchers pkg conf) 0 (NewZoneDefinition z)
        (resolvedState pkg conf st) i e hok he, List.range_eq_range']
    rfl
  · intro hok
    rw [fetch_resolved pkg conf st h z herr hcount hzone,
      rangeFetchers_all_ok (allFetchers pkg conf) 0 (NewZoneDefinition z)
        (resolvedState pkg conf st) hok, List.range_eq_range']
    rfl

theorem FetchDefinition_fetch_phase_witness :
    FetchDefinition (demoPackageHostsFailing "boom") (demoConfig "k" "s" "" "Zone1") demoState =
      (Outcome.returned none (some (GoError.remote "boom")),
        { client := some (clientOf (demoConfig "k" "s" "" "Zone1")),
          world := (applyAll (some (clientOf (demoConfig "k" "s" "" "Zone1")))
            ((allFetchers (demoPackageHostsFailing "boom") (demoConfig "k" "s" "" "Zone1")).take
              (2 + 1))
            (seed (demoPackageHostsFailing "boom") (demoConfig "k" "s" "" "Zone1") demoState
              "Zone1")).2,
          events := demoState.events ++ resolveEvents (demoConfig "k" "s" "" "Zone1") ++
            (List.range (2 + 1)).map Event.fetcher }) :=
  (FetchDefinition_fetch_phase (demoPackageHostsFailing "boom") (demoConfig "k" "s" "" "Zone1")
    demoState (by decide) "Zone1" rfl (by decide) rfl).2.2.2.2.1 2 (GoError.remote "boom")
    (fun j hj => by interval_cases j <;> rfl) rfl

/-! ## The endpoint -/

/-- C8: for every configuration that passes validation the client constructor is
called once, first of all calls, with the URL `scheme ++ "://" ++ address ++ path`
in which an empty scheme, address or path is replaced by `http`,
`127.0.0.1:8080` or `/client/api` and a non-empty one is kept, and with the key
and the secret of the configuration; the handle is stored in the package-level
variable.  With scheme, address and path all empty the URL is
`http://127.0.0.1:8080/client/api`. -/
theorem FetchDefinition_endpoint {C : Cloudstack} (pkg : Package C) (conf : Config C)
    (st : State C) (h : ¬ invalidConfig conf) :
    (∃ rest,
      issued pkg conf st =
        Event.newAsyncClient
          { apiurl :=
              (if conf.Scheme = "" then "http" else conf.Scheme) ++ "://" ++
                (if conf.Address = "" then "127.0.0.1:8080" else conf.Address) ++
                (if conf.Path = "" then "/client/api" else conf.Path),
            apikey := conf.Key, secret := conf.Secret, verifyssl := false } :: rest ∧
      ∀ e ∈ rest, e.isNewClient = false) ∧
    (FetchDefinition pkg conf st).2.client =
      some
        { apiurl :=
            (if conf.Scheme = "" then "http" else conf.Scheme) ++ "://" ++
              (if conf.Address = "" then "127.0.0.1:8080" else conf.Address) ++
              (if conf.Path = "" then "/client/api" else conf.Path),
          apikey := conf.Key, secret := conf.Secret, verifyssl := false } ∧
    (conf.Scheme = "" → conf.Address = "" → conf.Path = "" →
      (FetchDefinition pkg conf st).2.client =
        some
          { apiurl := "http://127.0.0.1:8080/client/api",
            apikey := conf.Key, secret := conf.Secret, verifyssl := false }) := by
  have hcl := fetch_valid_client pkg conf st h
  refine ⟨?_, hcl, ?_⟩
  · obtain ⟨rest, h1, h2⟩ := issued_valid pkg conf st h
    refine ⟨[Event.logPrintln ("Attempting to fetch zone " ++ selectorOf conf),
      lookupEventOf conf] ++ rest, by rw [h1]; rfl, ?_⟩
    intro e he
    simp only [List.mem_append, List.mem_cons, List.mem_singleton, List.not_mem_nil,
      or_false] at he
    rcases he with (rfl | he) | he
    · rfl
    · subst he
      unfold lookupEventOf
      by_cases hid : conf.ZoneID = "" <;> simp [hid, Event.isNewClient]
    · have := h2 e he
      cases e <;> simp_all [Event.isFetcher, Event.isNewClient]
  · intro h1 h2 h3
    rw [hcl]
    simp [clientOf, endpointOf, h1, h2, h3]

theorem FetchDefinition_endpoint_witness :
    (FetchDefinition (demoPackage 1 none) (demoConfig "k" "s" "" "Zone1") demoState).2.client =
      some
        { apiurl := "http://127.0.0.1:8080/client/api",
          apikey := (demoConfig "k" "s" "" "Zone1").Key,
          secret := (demoConfig "k" "s" "" "Zone1").Secret, verifyssl := false } :=
  (FetchDefinition_endpoint (demoPackage 1 none) (demoConfig "k" "s" "" "Zone1") demoState
    (by decide)).2.2 rfl rfl rfl

/-! ## Lookup errors -/

/-- C9: for every configuration that passes validation, if the zone lookup returns
an error `e`, `FetchDefinition` returns `(nil, e)` with `e` as the lookup
surfaced it (whatever the reported count, zero included), and the only calls
issued are the client constructor, the log line and the lookup: no fetcher is
invoked.  For every configuration, a fetcher is invoked only if the configuration
passed validation and the lookup returned no error and a non-zero count, and
then only after the lookup. -/
theorem FetchDefinition_lookup_error {C : Cloudstack} (pkg : Package C) (conf : Config C)
    (st : State C) :
    (¬ invalidConfig conf → ∀ e, (lookupOf pkg conf st.world).err = some e →
      (FetchDefinition pkg conf st).1 = Outcome.returned none (some e) ∧
      issued pkg conf st = resolveEvents conf ∧
      fetcherCalls (issued pkg conf st) = []) ∧
    (fetcherCalls (issued pkg conf st) ≠ [] →
      ¬ invalidConfig conf ∧ (lookupOf pkg conf st.world).err = none ∧
      (lookupOf pkg conf st.world).count ≠ 0 ∧
      ∃ rest, issued pkg conf st = resolveEvents conf ++ rest ∧
        ∀ ev ∈ rest, ev.isFetcher = true) := by
  have key : ∀ e, ¬ invalidConfig conf → (lookupOf pkg conf st.world).err = some e →
      issued pkg conf st = resolveEvents conf := by
    intro e h he
    simp [issued, fetch_lookup_error pkg conf st h e he, resolvedState]
  constructor
  · intro h e he
    refine ⟨by rw [fetch_lookup_error pkg conf st h e he], key e h he, ?_⟩
    rw [key e h he, fetcherCalls_resolveEvents]
  · intro hne
    have hv : ¬ invalidConfig conf := by
      intro hi
      rw [issued_invalid pkg conf st hi] at hne
      exact hne rfl
    have herr : (lookupOf pkg conf st.world).err = none := by
      cases he : (lookupOf pkg conf st.world).err with
      | none => rfl
      | some e =>
        rw [key e hv he, fetcherCalls_resolveEvents] at hne
        exact absurd rfl hne
    refine ⟨hv, herr, ?_, issued_valid pkg conf st hv⟩
    intro hc
    have : issued pkg conf st = resolveEvents conf := by
      simp [issued, fetch_valid pkg conf st hv, herr, hc, resolvedState]
    rw [this, fetcherCalls_resolveEvents] at hne
    exact hne rfl

theorem FetchDefinition_lookup_error_witness :
    (FetchDefinition (demoPackage 0 (some (GoError.remote "unauthorized")))
        (demoConfig "k" "s" "" "Zone1") demoState).1 =
        Outcome.returned none (some (GoError.remote "unauthorized")) ∧
      issued (demoPackage 0 (some (GoError.remote "unauthorized")))
          (demoConfig "k" "s" "" "Zone1") demoState =
        resolveEvents (demoConfig "k" "s" "" "Zone1") ∧
      fetcherCalls (issued (demoPackage 0 (some (GoError.remote "unauthorized")))
        (demoConfig "k" "s" "" "Zone1") demoState) = [] :=
  (FetchDefinition_lookup_error (demoPackage 0 (some (GoError.remote "unauthorized")))
    (demoConfig "k" "s" "" "Zone1") demoState).1 (by decide) (GoError.remote "unauthorized") rfl

/-! ## The fresh structure -/

/-- When every fetcher of a run hands the structure on as it received it, the
structure is the initial one after any number of them. -/
theorem applyAll_unchanged {C : Cloudstack} (cl : Option CloudStackClient)
    (fs : List (Fetcher C)) (s : ZoneDefinition C × C.World)
    (hsame : ∀ j, j < fs.length →
      (applyAll cl (fs.take (j + 1)) s).1 = (applyAll cl (fs.take j) s).1) :
    ∀ k, k ≤ fs.length → (applyAll cl (fs.take k) s).1 = s.1 := by
  intro k
  induction k with
  | zero => intro _; simp [applyAll]
  | succ k ih =>
    intro hk
    rw [hsame k (by omega)]
    exact ih (by omega)

/-- C10: `NewZoneDefinition z` has `Zone = z` and its nine collections are all
initialised and empty.  Consequently, for a run in which the configuration passes
validation, the lookup returns one zone `z` without error, and every fetcher
(built-in or caller-supplied), when its turn comes in this run, succeeds and leaves
the structure as it received it (the remote has nothing to list),
`FetchDefinition` returns a nil error and a structure with `Zone = z` whose nine
collections are all initialised and empty. -/
theorem NewZoneDefinition_fresh {C : Cloudstack} (z : C.Zone) :
    ((NewZoneDefinition z : ZoneDefinition C).Zone = z ∧
      allPresentAndEmpty (NewZoneDefinition z : ZoneDefinition C)) ∧
    (∀ (pkg : Package C) (conf : Config C) (st : State C),
      ¬ invalidConfig conf →
      (lookupOf pkg conf st.world).err = none →
      (lookupOf pkg conf st.world).count = 1 →
      (lookupOf pkg conf st.world).zone = some z →
      (∀ j, j < (allFetchers pkg conf).length →
        errAt (some (clientOf conf)) (allFetchers pkg conf) j (seed pkg conf st z) = none ∧
        (applyAll (some (clientOf conf)) ((allFetchers pkg conf).take (j + 1))
            (seed pkg conf st z)).1 =
          (applyAll (some (clientOf conf)) ((allFetchers pkg conf).take j)
            (seed pkg conf st z)).1) →
      ∃ zd, (FetchDefinition pkg conf st).1 = Outcome.returned (some zd) none ∧
        zd = NewZoneDefinition z ∧ zd.Zone = z ∧ allPresentAndEmpty zd) := by
  have hfresh : (NewZoneDefinition z : ZoneDefinition C).Zone = z ∧
      allPresentAndEmpty (NewZoneDefinition z : ZoneDefinition C) := by
    simp [NewZoneDefinition, allPresentAndEmpty, GoMap.presentAndEmpty, GoMap.make]
  refine ⟨hfresh, ?_⟩
  intro pkg conf st h herr hcount hzone hrun
  refine ⟨NewZoneDefinition z, ?_, rfl, hfresh⟩
  have hsame := applyAll_unchanged (some (clientOf conf)) (allFetchers pkg conf)
    (seed pkg conf st z) (fun j hj => (hrun j hj).2) (allFetchers pkg conf).length (le_refl _)
  rw [List.take_length] at hsame
  rw [fetch_resolved pkg conf st h z herr (by rw [hcount]; decide) hzone,
    rangeFetchers_all_ok (allFetchers pkg conf) 0 (NewZoneDefinition z)
      (resolvedState pkg conf st) (fun j hj => (hrun j hj).1)]
  show Outcome.returned (some (applyAll (some (clientOf conf)) (allFetchers pkg conf)
    (seed pkg conf st z)).1) none = _
  rw [hsame]
  rfl

theorem NewZoneDefinition_fresh_witness :
    ∃ zd, (FetchDefinition demoPackageListing (demoConfig "k" "s" "" "Zone1") demoState).1 =
        Outcome.returned (some zd) none ∧
      zd = NewZoneDefinition "Zone1" ∧ zd.Zone = "Zone1" ∧ allPresentAndEmpty zd :=
  (NewZoneDefinition_fresh (C := demoCloud) "Zone1").2 demoPackageListing
    (demoConfig "k" "s" "" "Zone1") demoState (by decide) rfl rfl rfl
    (by
      intro j hj
      have hj9 : j < 9 := hj
      interval_cases j <;> exact ⟨rfl, rfl⟩)

/-! ## The not-found message -/

theorem parsenumLoop_length (s : List Char) :
    ∀ (num : Nat) (isnum : Bool), (parsenumLoop s num isnum).2.2.length ≤ s.length := by
  induction s with
  | nil => intro num isnum; simp [parsenumLoop]
  | cons c cs ih =>
    intro num isnum
    unfold parsenumLoop
    split_ifs
    · simp
    · exact Nat.le_succ_of_le (ih _ _)
    · simp

theorem parsenum_length (s : List Char) : (parsenum s).2.2.length ≤ s.length := by
  unfold parsenum
  split_ifs
  · simp
  · exact parsenumLoop_length s 0 false

theorem dropWhile_length {α : Type} (p : α → Bool) (l : List α) :
    (l.dropWhile p).length ≤ l.length :=
  (List.dropWhile_sublist p).length_le

theorem dropWhile_tail_length {α : Type} (p : α → Bool) (l : List α) (a : α) (rest : List α)
    (h : l.dropWhile p = a :: rest) : rest.length < l.length := by
  have := dropWhile_length p l
  rw [h] at this
  simpa using this

theorem parseArgNumber_length (format : List Char) :
    (parseArgNumber format).1.length ≤ format.length := by
  unfold parseArgNumber
  split_ifs
  · simp
  · split
    · simp
    · rename_i a rest heq
      have := dropWhile_tail_length _ _ a rest heq
      have h2 : (format.drop 1).length ≤ format.length := by simp
      dsimp only
      split_ifs <;> simp <;> omega

theorem argNumber_length (format : List Char) (good : Bool) :
    (argNumber format good).1.length ≤ format.length := by
  unfold argNumber
  split
  · exact parseArgNumber_length _
  · exact le_refl _

theorem doWidth_length (format : List Char) (a g : Bool) :
    (doWidth format a g).2.1.length ≤ format.length := by
  unfold doWidth
  split
  · simp
  · exact parsenum_length _

theorem doPrecision_length (format : List Char) (a g : Bool) :
    (doPrecision format a g).2.1.length ≤ format.length := by
  unfold doPrecision
  split
  · rename_i c cs
    have h1 := argNumber_length (c :: cs) (if a then false else g)
    generalize argNumber (c :: cs) (if a then false else g) = x at h1
    dsimp only
    split
    · rename_i rest2 heq
      rw [heq] at h1
      simp only [List.length_cons] at h1 ⊢
      omega
    · have h2 := parsenum_length x.1
      simp only [List.length_cons] at h1 ⊢
      omega
  · exact le_refl _

theorem doVerb_length (format : List Char) : (doVerb format).2.length ≤ format.length := by
  have h1 : (skipFlags format).length ≤ format.length := dropWhile_length _ _
  have h2 := argNumber_length (skipFlags format) true
  have h3 := doWidth_length (argNumber (skipFlags format) true).1
    (argNumber (skipFlags format) true).2.1 (argNumber (skipFlags format) true).2.2
  unfold doVerb
  dsimp only
  generalize doWidth (argNumber (skipFlags format) true).1
    (argNumber (skipFlags format) true).2.1 (argNumber (skipFlags format) true).2.2 = w at h3 ⊢
  have h4 := doPrecision_length w.2.1 w.2.2.1 w.2.2.2
  generalize doPrecision w.2.1 w.2.2.1 w.2.2.2 = p at h4 ⊢
  have h5 : (if (!p.2.2.1) = true then argNumber p.2.1 p.2.2.2
      else (p.2.1, p.2.2.1, p.2.2.2)).1.length ≤ p.2.1.length := by
    split_ifs
    · exact argNumber_length _ _
    · exact le_refl _
  generalize (if (!p.2.2.1) = true then argNumber p.2.1 p.2.2.2
      else (p.2.1, p.2.2.1, p.2.2.2)) = b at h5 ⊢
  split
  · simp
  · rename_i verb rest heq
    rw [heq] at h5
    simp only [List.length_cons] at h5
    split_ifs <;> simp only [] <;> omega

/-- The round budget `format.length` is enough: `doPrintf` reads at least one
character per round, so it always produces its output. -/
theorem doPrintf_total : ∀ (fuel : Nat) (format : List Char),
    format.length ≤ fuel → (doPrintf fuel format).isSome = true := by
  intro fuel
  induction fuel with
  | zero =>
    intro format h
    cases format with
    | nil => rfl
    | cons c cs => simp at h
  | succ n ih =>
    intro format h
    cases format with
    | nil => rfl
    | cons c cs =>
      unfold doPrintf
      dsimp only
      split
      · rfl
      · rename_i a rest heq
        have h1 := dropWhile_tail_length _ _ a rest heq
        have h2 := doVerb_length rest
        have h3 := ih (doVerb rest).2 (by simp only [List.length_cons] at h h1; omega)
        obtain ⟨out, hout⟩ := Option.isSome_iff_exists.1 h3
        rw [hout]
        rfl

/-- A format without a percent sign is written as it is. -/
theorem Sprintf_plain (format : String) (h : '%' ∉ format.toList) :
    Sprintf format = format := by
  unfold Sprintf
  rcases format with ⟨l⟩
  cases l with
  | nil => rfl
  | cons c cs =>
    have ht : ∀ x ∈ (c :: cs), (fun x => x != '%') x = true := by
      intro x hx
      have : x ≠ '%' := fun hxe => h (hxe ▸ hx)
      simpa using this
    have hd : (c :: cs).dropWhile (fun x => x != '%') = [] := by
      rw [List.dropWhile_eq_nil_iff]; exact ht
    have htk : (c :: cs).takeWhile (fun x => x != '%') = c :: cs := by
      rw [List.takeWhile_eq_self_iff]; exact ht
    show String.mk ((doPrintf (c :: cs).length (c :: cs)).getD []) = _
    simp only [List.length_cons]
    unfold doPrintf
    simp only [hd, htk, Option.getD_some]

/-- For a zone selector without a percent sign, a lookup that reports no error and
zero matches makes `FetchDefinition` fail with the message that names the
requested zone. -/
theorem not_found_message_plain {C : Cloudstack} (pkg : Package C) (conf : Config C)
    (st : State C) (h : ¬ invalidConfig conf)
    (herr : (lookupOf pkg conf st.world).err = none)
    (hcount : (lookupOf pkg conf st.world).count = 0)
    (hplain : '%' ∉ (selectorOf conf).toList) :
    (FetchDefinition pkg conf st).1 =
      Outcome.returned none (some (errorsNew ("zone " ++ selectorOf conf ++ " not found"))) := by
  rw [fetch_valid pkg conf st h, herr]
  simp only [hcount, if_true, Errorf]
  rw [Sprintf_plain]
  intro hmem
  simp only [String.toList, String.data_append, List.mem_append] at hmem
  rcases hmem with (hm | hm) | hm
  · revert hm; decide
  · exact hplain hm
  · revert hm; decide

theorem not_found_message_plain_witness :
    (FetchDefinition (demoPackage 0 none) (demoConfig "k" "s" "" "Missing") demoState).1 =
      Outcome.returned none (some (errorsNew "zone Missing not found")) :=
  not_found_message_plain (demoPackage 0 none) (demoConfig "k" "s" "" "Missing") demoState
    (by decide) rfl rfl (by decide)

/-- C5 at the zone name `100%`: validation passes, the lookup reports no error and
zero matches, and `FetchDefinition` fails with the message
`zone 100%!n(MISSING)ot found`, which is not `zone 100% not found`: the
requested name is used as part of a format string. -/
theorem not_found_message_percent :
    ¬ invalidConfig (demoConfig "k" "s" "" "100%") ∧
    (lookupOf (demoPackage 0 none) (demoConfig "k" "s" "" "100%") demoState.world).err = none ∧
    (lookupOf (demoPackage 0 none) (demoConfig "k" "s" "" "100%") demoState.world).count = 0 ∧
    (FetchDefinition (demoPackage 0 none) (demoConfig "k" "s" "" "100%") demoState).1 =
      Outcome.returned none (some (errorsNew "zone 100%!n(MISSING)ot found")) ∧
    (FetchDefinition (demoPackage 0 none) (demoConfig "k" "s" "" "100%") demoState).1 ≠
      Outcome.returned none (some (errorsNew ("zone " ++ "100%" ++ " not found"))) := by
  have hrun : (FetchDefinition (demoPackage 0 none) (demoConfig "k" "s" "" "100%")
      demoState).1 = Outcome.returned none (some (errorsNew "zone 100%!n(MISSING)ot found")) := by
    rw [fetch_valid _ _ _ (by decide)]
    have hs : Sprintf "zone 100% not found" = "zone 100%!n(MISSING)ot found" := by decide
    simp only [lookupOf, demoConfig, demoPackage, demoLookup, if_true, Errorf, selectorOf]
    rw [show "zone " ++ "100%" ++ " not found" = "zone 100% not found" by decide, hs]
  refine ⟨by decide, rfl, rfl, hrun, ?_⟩
  rw [hrun]
  simp only [errorsNew, ne_eq, Outcome.returned.injEq, Option.some.injEq,
    GoError.errorString.injEq, true_and]
  decide

/-- The format model on a few formats without operands: plain text, a doubled
percent sign, a verb without operand, a trailing percent sign, a trailing dot,
argument indexes, star width and star precision. -/
theorem Sprintf_samples :
    Sprintf "zone Missing not found" = "zone Missing not found" ∧
    Sprintf "a%%b%d%" = "a%b%!d(MISSING)%!(NOVERB)" ∧
    Sprintf "%." = "%!.(MISSING)" ∧
    Sprintf "%.d|%.3" = "%!d(MISSING)|%!(NOVERB)" ∧
    Sprintf "%[1]d|%[x]d|%[d" = "%!d(BADINDEX)|%!d(BADINDEX)|%!d(BADINDEX)" ∧
    Sprintf "%*d|%.*d|%-08.3f" = "%!(BADWIDTH)%!d(MISSING)|%!(BADPREC)%!d(MISSING)|%!f(MISSING)" := by
  decide

end Definition
